import Mathlib

/- Verification development for the agent-tutorial corpus.  The pure helper
functions that the repository defines (an emoji translator and a JSON
output extractor) are embedded directly from the Python source.  The agent
run-loop engine that the scripts exercise lives in an external SDK, so it
is modelled from the repository's specification of that engine. -/

/- Python string primitives used by the embedded functions. -/

/-- Python str.split() with no separator: split on whitespace, dropping
empty fragments. -/
def pySplitWs (s : String) : List String :=
  (s.split Char.isWhitespace).filter (fun w => w ≠ "")

/-- Python str.strip(chars): drop characters belonging to the set from both
ends of the string. -/
def pyStripChars (chars : List Char) (s : String) : String :=
  String.mk (((s.toList.dropWhile (fun c => chars.contains c)).reverse.dropWhile
    (fun c => chars.contains c)).reverse)

/-- Python str.strip() with no argument: drop whitespace from both ends. -/
def pyStripWs (s : String) : String :=
  String.mk (((s.toList.dropWhile Char.isWhitespace).reverse.dropWhile
    Char.isWhitespace).reverse)

/-- Python str.startswith(p): the first p.length characters equal p. -/
def pyStartsWith (s p : String) : Bool :=
  s.toList.take p.toList.length == p.toList

/- translate_to_emoji, from
src/openaiagentssdktutorial/openaiagentssdk/09BasicCloning/basiccloning.py. -/

/-- The punctuation set passed to word.strip in translate_to_emoji. -/
def punctSet : List Char := ".,!?;:".toList

/-- The ten-entry emoji dictionary of translate_to_emoji. -/
def emoji_map : List (String × String) :=
  [("happy", "😊"), ("sad", "😢"), ("love", "❤️"), ("cool", "😎"),
   ("food", "🍔"), ("drink", "🍹"), ("travel", "✈️"), ("music", "🎵"),
   ("book", "📚"), ("computer", "💻")]

/-- One iteration of the loop of translate_to_emoji: strip punctuation from
the word, append its emoji to the accumulator when the word is in the
dictionary, append the stripped word otherwise. -/
def translateStep (acc : List String) (word : String) : List String :=
  let word := pyStripChars punctSet word
  match emoji_map.lookup word with
  | some e => acc ++ [e]
  | none => acc ++ [word]

/-- translate_to_emoji from basiccloning.py: lowercase the text, split it on
whitespace, strip punctuation from each word, replace dictionary words by
their emoji, and join the accumulated results with single spaces.  The
Python loop appending to the result list is a left fold. -/
def translate_to_emoji (text : String) : String :=
  let words := pySplitWs text.toLower
  let result := words.foldl translateStep []
  " ".intercalate result

/-- The per-word translation exactly as claim C9 words it: after stripping
the punctuation characters, the word is replaced by its emoji when it is one
of the ten keys of the dictionary and is otherwise kept as the stripped
word. -/
def emojiWordSpec (w : String) : String :=
  if (emoji_map.map Prod.fst).contains (pyStripChars punctSet w) then
    (emoji_map.lookup (pyStripChars punctSet w)).getD (pyStripChars punctSet w)
  else pyStripChars punctSet w

/-- Claim C9 rendering of the whole function: the words of the lowercased
input split on whitespace, each translated, joined by single spaces. -/
def translate_to_emoji_spec (text : String) : String :=
  " ".intercalate ((pySplitWs text.toLower).map emojiWordSpec)

/- extract_json_payload, from
src/openaiagentssdktutorial/openaiagentssdk/15tools/13customoutputextraction/13customoutputextraction.py. -/

/-- The run items a RunResult can hold, as far as extract_json_payload
inspects them: the isinstance check distinguishes tool-call output items
from everything else. -/
inductive RunItem where
  | toolCallOutputItem (output : String)
  | messageOutputItem (text : String)
  | toolCallItem (toolName : String)
  deriving DecidableEq, Repr

/-- The slice of a RunResult that extract_json_payload reads. -/
structure RunResultPy where
  new_items : List RunItem

/-- The loop body of extract_json_payload: walk the (already reversed) item
list, return the stripped output of the first tool-call output item whose
stripped output starts with an opening brace, or the literal empty-object
string when the walk finds none. -/
def findJsonOutput : List RunItem → String
  | [] => "\x7b\x7d"
  | RunItem.toolCallOutputItem out :: rest =>
      if pyStartsWith (pyStripWs out) "\x7b" then pyStripWs out
      else findJsonOutput rest
  | _ :: rest => findJsonOutput rest

/-- extract_json_payload from 13customoutputextraction.py: scan new_items in
reverse order for a ToolCallOutputItem whose stripped output starts with an
opening brace; return that stripped output, with the empty JSON object as
fallback. -/
def extract_json_payload (r : RunResultPy) : String :=
  findJsonOutput r.new_items.reverse

/-- The selection predicate of claim C10: a tool-call output item whose
stripped output begins with an opening brace. -/
def isJsonToolOutput : RunItem → Bool
  | RunItem.toolCallOutputItem out => pyStartsWith (pyStripWs out) "\x7b"
  | _ => false

/-- Claim C10 rendering of extract_json_payload via List.find? over the
reversed item list. -/
def extract_json_payload_spec (r : RunResultPy) : String :=
  match r.new_items.reverse.find? isJsonToolOutput with
  | some (RunItem.toolCallOutputItem out) => pyStripWs out
  | _ => "\x7b\x7d"

/- Lemmas relating the embedded functions to the claim-side renderings. -/

/-- The translation of a single word as the implementation computes it. -/
def emojiWordImpl (w : String) : String :=
  match emoji_map.lookup (pyStripChars punctSet w) with
  | some e => e
  | none => pyStripChars punctSet w

theorem contains_keys_eq_isSome (l : List (String × String)) (k : String) :
    (l.map Prod.fst).contains k = (l.lookup k).isSome := by
  induction l with
  | nil => rfl
  | cons p t ih =>
    cases p with
    | mk a b =>
      cases hk : (k == a)
      · simpa [List.lookup, hk] using ih
      · simp [List.lookup, hk]

theorem translateStep_foldl (l : List String) (acc : List String) :
    l.foldl translateStep acc = acc ++ l.map emojiWordImpl := by
  induction l generalizing acc with
  | nil => simp
  | cons w t ih =>
    simp only [List.foldl_cons, List.map_cons, ih]
    cases h : emoji_map.lookup (pyStripChars punctSet w) <;>
      simp [translateStep, emojiWordImpl, h]

theorem emojiWordImpl_eq_spec (w : String) : emojiWordImpl w = emojiWordSpec w := by
  unfold emojiWordImpl emojiWordSpec
  rw [contains_keys_eq_isSome]
  cases h : emoji_map.lookup (pyStripChars punctSet w) <;> simp [h]

/-- Claim C9: translate_to_emoji returns the words of the lowercased input
split on whitespace, joined by single spaces, each word replaced (after
stripping the punctuation characters) by its emoji when it is one of the ten
dictionary keys and kept as the stripped word otherwise; being a Lean
function, it is total and deterministic. -/
theorem C9_translate_to_emoji_correct (text : String) :
    translate_to_emoji text = translate_to_emoji_spec text := by
  simp only [translate_to_emoji, translate_to_emoji_spec]
  rw [translateStep_foldl]
  rw [show emojiWordImpl = emojiWordSpec from funext emojiWordImpl_eq_spec]
  simp

theorem findJsonOutput_eq_find (l : List RunItem) :
    findJsonOutput l = (match l.find? isJsonToolOutput with
      | some (RunItem.toolCallOutputItem out) => pyStripWs out
      | _ => "\x7b\x7d") := by
  induction l with
  | nil => rfl
  | cons i rest ih =>
    cases i with
    | toolCallOutputItem out =>
      by_cases h : pyStartsWith (pyStripWs out) "\x7b"
      · simp [findJsonOutput, List.find?, isJsonToolOutput, h]
      · simp [findJsonOutput, List.find?, isJsonToolOutput, h, ih]
    | messageOutputItem t =>
      simpa [findJsonOutput, List.find?, isJsonToolOutput] using ih
    | toolCallItem n =>
      simpa [findJsonOutput, List.find?, isJsonToolOutput] using ih

/-- Claim C10: extract_json_payload returns the stripped output of the last
item of new_items (first in reverse order) that is a tool-call output item
whose stripped output begins with an opening brace, and the literal
empty-object string when no such item exists; it always returns a string
beginning with an opening brace, and being a Lean function it never
raises. -/
theorem C10_extract_json_payload_correct (r : RunResultPy) :
    extract_json_payload r = extract_json_payload_spec r ∧
    pyStartsWith (extract_json_payload r) "\x7b" = true := by
  refine ⟨findJsonOutput_eq_find _, ?_⟩
  unfold extract_json_payload
  rw [findJsonOutput_eq_find]
  cases h : r.new_items.reverse.find? isJsonToolOutput with
  | none => decide
  | some i =>
    have hp := List.find?_some h
    cases i with
    | toolCallOutputItem out => simpa [isJsonToolOutput] using hp
    | messageOutputItem t => simp [isJsonToolOutput] at hp
    | toolCallItem n => simp [isJsonToolOutput] at hp

/- The agent run-loop engine.  The scripts of this repository drive this
engine through an external SDK, so the engine itself is not part of the
source tree; every definition below is modelled from the repository's
specification of the engine (data model, run loop, tool invoker, handoff
router, guardrail evaluator). -/

/-- Modelled from the spec: ConversationItem, the tagged union of
conversation turns forming the append-only history. -/
inductive Item where
  | userMessage (content : String)
  | assistantMessage (content : String)
  | toolCall (toolName : String) (args : String) (callId : Nat)
  | toolResult (callId : Nat) (output : String)
  | handoffSignal (targetAgent : String)
  | reasoning (text : String)
  deriving DecidableEq, Repr

/-- Modelled from the spec: a guardrail verdict, an output-info payload plus
the tripwire boolean (GuardrailFunctionOutput in the scripts). -/
structure GuardrailFunctionOutput where
  outputInfo : String
  tripwireTriggered : Bool
  deriving DecidableEq, Repr

/-- Modelled from the spec: a guardrail is an evaluation function over the
pending input (or produced output) returning a verdict plus tripwire. -/
def Guardrail : Type := String → GuardrailFunctionOutput

/-- Modelled from the spec: a Tool has a name, an invocation function over
the raw argument payload (a raising body is an Except.error), and an
optional custom failure handler. -/
structure Tool where
  name : String
  body : String → Except String String
  failureHandler : Option (String → String) := none

/-- Modelled from the spec: a Handoff names its target agent (targets are
referenced by stable identifier to allow cyclic handoff graphs) and may
carry an input filter transforming the accumulated history. -/
structure Handoff where
  targetName : String
  inputFilter : Option (List Item → List Item) := none

/-- Modelled from the spec: the tool-choice model setting (auto, required,
or no tool use). -/
inductive ToolChoice where
  | auto
  | required
  | noTool
  deriving DecidableEq, Repr

/-- Modelled from the spec: per-agent model settings (the slice the claims
need: tool_choice). -/
structure ModelSettings where
  toolChoice : ToolChoice := ToolChoice.auto
  deriving DecidableEq, Repr

/-- Modelled from the spec: the tool-use policy; stop_on_first_tool
terminates the run immediately after one tool executes. -/
inductive ToolUseBehavior where
  | runLlmAgain
  | stopOnFirstTool
  deriving DecidableEq, Repr

/-- Modelled from the spec: AgentDefinition with name, instructions, tools,
handoffs, guardrails, model settings and tool-use policy; immutable once
constructed. -/
structure AgentDef where
  name : String
  instructions : String
  tools : List Tool := []
  handoffs : List Handoff := []
  inputGuardrails : List Guardrail := []
  outputGuardrails : List Guardrail := []
  modelSettings : ModelSettings := {}
  toolUseBehavior : ToolUseBehavior := ToolUseBehavior.runLlmAgain

/-- Modelled from the spec: a tool-call request issued by the model step,
naming a tool with a raw argument payload and a call id. -/
structure ToolRequest where
  name : String
  args : String
  callId : Nat
  deriving DecidableEq, Repr

/-- Modelled from the spec: one response of the model backend — a final
message, a set of tool-call requests, or a handoff selection.  The backend
is opaque, so a run is driven by a script of such responses, one consumed
per model invocation. -/
inductive ModelResponse where
  | message (content : String)
  | toolCalls (reqs : List ToolRequest)
  | handoff (targetName : String)

/-- Modelled from the spec: the error taxonomy of the engine. -/
inductive RunError where
  | maxTurnsExceeded
  | modelBehaviorError
  | inputGuardrailTripwireTriggered (out : GuardrailFunctionOutput)
  | outputGuardrailTripwireTriggered (out : GuardrailFunctionOutput)
  | toolExecutionError (msg : String)
  | userError (msg : String)
  deriving DecidableEq, Repr

/-- Modelled from the spec: RunResult — final output, terminal agent
identity, full ordered item history, and the number of turns used. -/
structure RunResult where
  finalOutput : String
  lastAgent : String
  history : List Item
  turnsUsed : Nat
  deriving DecidableEq, Repr

/-- Modelled from the spec: evaluate the guardrails attached at one point;
any tripped tripwire aborts deterministically with that guardrail's
verdict (the first tripped one in attachment order). -/
def evalGuardrails (gs : List Guardrail) (input : String) : Option GuardrailFunctionOutput :=
  (gs.map (fun g => g input)).find? (fun out => out.tripwireTriggered)

/-- Modelled from the spec: the tool invoker — look the tool up by name
(unknown names are a ModelBehaviorError), execute the body, and catch a
raising body at the invoker boundary: a configured failure handler turns
the error into the ToolResult output, otherwise the error is fatal. -/
def executeToolCall (tools : List Tool) (req : ToolRequest) : Except RunError Item :=
  match tools.find? (fun t => t.name == req.name) with
  | none => Except.error RunError.modelBehaviorError
  | some t =>
    match t.body req.args with
    | Except.ok out => Except.ok (Item.toolResult req.callId out)
    | Except.error e =>
      match t.failureHandler with
      | some handler => Except.ok (Item.toolResult req.callId (handler e))
      | none => Except.error (RunError.toolExecutionError e)

/-- Modelled from the spec: dispatch all tool calls of one model turn and
collect their results in request order. -/
def dispatchToolCalls (tools : List Tool) : List ToolRequest → Except RunError (List Item)
  | [] => Except.ok []
  | req :: rest =>
    match executeToolCall tools req with
    | Except.error e => Except.error e
    | Except.ok item =>
      match dispatchToolCalls tools rest with
      | Except.error e => Except.error e
      | Except.ok items => Except.ok (item :: items)

/-- Modelled from the spec: the handoff router applies the optional input
filter to the accumulated history before the target agent sees it. -/
def applyInputFilter (h : Handoff) (hist : List Item) : List Item :=
  match h.inputFilter with
  | some f => f hist
  | none => hist

/-- Modelled from the spec: the handoff input filter of the extensions
module that strips all prior tool items from the history. -/
def remove_all_tools (hist : List Item) : List Item :=
  hist.filter (fun i =>
    match i with
    | Item.toolCall _ _ _ => false
    | Item.toolResult _ _ => false
    | _ => true)

/-- Modelled from the spec: the run loop.  Each iteration consumes one model
response; the turn counter is checked against max_turns at the top of every
turn; a final message (after output guardrails) terminates the run; tool
calls are dispatched and, under stop_on_first_tool, the first tool result
becomes the final output with no further model call; a handoff filters the
history and swaps the active agent. -/
def runTurns (registry : List AgentDef) (agent : AgentDef) (hist : List Item)
    (script : List ModelResponse) (turn maxTurns : Nat) : Except RunError RunResult :=
  if turn > maxTurns then Except.error RunError.maxTurnsExceeded
  else
    match script with
    | [] => Except.error RunError.modelBehaviorError
    | resp :: rest =>
      match resp with
      | ModelResponse.message m =>
        match evalGuardrails agent.outputGuardrails m with
        | some out => Except.error (RunError.outputGuardrailTripwireTriggered out)
        | none =>
          Except.ok { finalOutput := m, lastAgent := agent.name,
                      history := hist ++ [Item.assistantMessage m], turnsUsed := turn }
      | ModelResponse.toolCalls reqs =>
        match dispatchToolCalls agent.tools reqs with
        | Except.error e => Except.error e
        | Except.ok items =>
          let callItems := reqs.map (fun r => Item.toolCall r.name r.args r.callId)
          let hist' := hist ++ callItems ++ items
          match agent.toolUseBehavior with
          | ToolUseBehavior.stopOnFirstTool =>
            match items with
            | Item.toolResult _ out :: _ =>
              Except.ok { finalOutput := out, lastAgent := agent.name,
                          history := hist', turnsUsed := turn }
            | _ => Except.error RunError.modelBehaviorError
          | ToolUseBehavior.runLlmAgain =>
            runTurns registry agent hist' rest (turn + 1) maxTurns
      | ModelResponse.handoff target =>
        match agent.handoffs.find? (fun h => h.targetName == target) with
        | none => Except.error RunError.modelBehaviorError
        | some h =>
          match registry.find? (fun a => a.name == target) with
          | none => Except.error RunError.modelBehaviorError
          | some next =>
            let hist' := applyInputFilter h (hist ++ [Item.handoffSignal target])
            runTurns registry next hist' rest (turn + 1) maxTurns

/-- Modelled from the spec: the run entry point.  All input guardrails of
the starting agent are evaluated over the pending input before any model
invocation; a tripped tripwire aborts with that guardrail's verdict, and
only otherwise does the loop (and with it the model backend, represented by
the script) start, from turn 1. -/
def run (registry : List AgentDef) (agent : AgentDef) (input : String)
    (script : List ModelResponse) (maxTurns : Nat) : Except RunError RunResult :=
  match evalGuardrails agent.inputGuardrails input with
  | some out => Except.error (RunError.inputGuardrailTripwireTriggered out)
  | none => runTurns registry agent [Item.userMessage input] script 1 maxTurns

/-- Modelled from the spec: RunResult.to_input_list — the full ordered item
history of the run, ready to be concatenated with new input. -/
def RunResult.toInputList (r : RunResult) : List Item := r.history

/-- Modelled from the spec: to_continuation_input — the prior history plus a
single new user item appended verbatim, for starting a subsequent run. -/
def RunResult.toContinuationInput (r : RunResult) (newMessage : String) : List Item :=
  r.toInputList ++ [Item.userMessage newMessage]

/-- The optional field overrides accepted by AgentDef.clone (the fields the
cloning scripts override: name, instructions, tools). -/
structure CloneOverrides where
  name : Option String := none
  instructions : Option String := none
  tools : Option (List Tool) := none

/-- Modelled from the spec: cloning produces a new AgentDefinition with
selectively overridden fields; every field not explicitly overridden is
taken from the original. -/
def AgentDef.clone (a : AgentDef) (o : CloneOverrides) : AgentDef :=
  { a with
    name := o.name.getD a.name,
    instructions := o.instructions.getD a.instructions,
    tools := o.tools.getD a.tools }

/-- Whether an item is a tool-call item. -/
def Item.isToolCall : Item → Bool
  | Item.toolCall _ _ _ => true
  | _ => false

/-- Whether an item is a tool-result item. -/
def Item.isToolResult : Item → Bool
  | Item.toolResult _ _ => true
  | _ => false

/- Concurrent fan-out of one turn's tool calls.  Modelled from the spec:
tool calls issued in the same model turn execute concurrently and their
results are reassembled in the original request order. -/

/-- Modelled from the spec: the completion log of a concurrent fan-out.  A
schedule lists request indices in the order the concurrently executing tool
bodies happen to finish; each completion deposits the pair of its request
index and its result. -/
def completionLog (tools : List Tool) (reqs : List ToolRequest) (schedule : List Nat) :
    List (Nat × Except RunError Item) :=
  schedule.filterMap (fun i => (reqs.get? i).map (fun r => (i, executeToolCall tools r)))

/-- Modelled from the spec: the ordered join — the results of one turn's
tool calls are read back from the completion log slot by slot, in the
original request order. -/
def reassemble (n : Nat) (log : List (Nat × Except RunError Item)) :
    List (Option (Except RunError Item)) :=
  (List.range n).map (fun i => (log.find? (fun e => e.fst == i)).map Prod.snd)

/- Concrete agents and tools of the scripts the claims cite. -/

/-- A guardrail standing for banned_word_guardrail of 10gaurdrails.py on a
flagged input: the verdict carries the detector's output and trips. -/
def flagAllGuardrail : Guardrail := fun _ =>
  { outputInfo := "contains_banned_word=True", tripwireTriggered := true }

/-- The polite agent of 10gaurdrails.py with its input guardrail. -/
def politeAgent : AgentDef :=
  { name := "Polite Agent",
    instructions := "You are a polite assistant who replies to friendly questions only.",
    inputGuardrails := [flagAllGuardrail] }

/-- Split a character list at commas. -/
def splitCommaChars : List Char → List (List Char)
  | [] => [[]]
  | c :: cs =>
    if c = ',' then [] :: splitCommaChars cs
    else
      match splitCommaChars cs with
      | [] => [[c]]
      | g :: gs => (c :: g) :: gs

/-- Split a raw argument payload at commas. -/
def splitComma (s : String) : List String := (splitCommaChars s.toList).map String.mk

/-- Parse a nonempty digit string. -/
def parseNatDigits (cs : List Char) : Option Nat :=
  match cs with
  | [] => none
  | _ =>
    cs.foldl
      (fun acc? c =>
        match acc? with
        | none => none
        | some acc => if c.isDigit then some (acc * 10 + (c.toNat - 48)) else none)
      (some 0)

/-- Parse an optionally negated integer literal. -/
def parseIntChars : List Char → Option Int
  | '-' :: rest => (parseNatDigits rest).map (fun n => -(n : Int))
  | cs => (parseNatDigits cs).map (fun n => (n : Int))

/-- add_numbers from 12forcingtools.py. -/
def add_numbers (a b : Int) : Int := a + b

/-- add_numbers wrapped as a function tool; the raw payload is the two
arguments separated by a comma. -/
def addNumbersTool : Tool :=
  { name := "add_numbers",
    body := fun args =>
      match (splitComma args).map (fun s => parseIntChars s.toList) with
      | [some a, some b] => Except.ok (toString (add_numbers a b))
      | _ => Except.error "invalid arguments" }

/-- The math agent of 12forcingtools.py: tool_choice required,
stop_on_first_tool. -/
def mathAgent : AgentDef :=
  { name := "Math Agent",
    instructions := "You are a math assistant. Use the tool to add numbers.",
    tools := [addNumbersTool],
    modelSettings := { toolChoice := ToolChoice.required },
    toolUseBehavior := ToolUseBehavior.stopOnFirstTool }

/-- custom_error_handler from 14errorhandlingfunctiontool.py. -/
def custom_error_handler (err : String) : String :=
  "Oops! Something went wrong in the tool: " ++ err

/-- The body of risky_division from 14errorhandlingfunctiontool.py: dividing
by zero raises. -/
def risky_division_body (args : String) : Except String String :=
  match (splitComma args).map (fun s => parseIntChars s.toList) with
  | [some n, some d] =>
    if d == 0 then Except.error "division by zero"
    else Except.ok ("Result: " ++ toString (n / d))
  | _ => Except.error "invalid arguments"

/-- risky_division with its failure handler attached. -/
def riskyDivisionTool : Tool :=
  { name := "risky_division",
    body := risky_division_body,
    failureHandler := some custom_error_handler }

/-- risky_division with no failure handler declared. -/
def riskyDivisionBareTool : Tool :=
  { name := "risky_division",
    body := risky_division_body }

/-- The math-helper agent of 14errorhandlingfunctiontool.py. -/
def mathHelperAgent : AgentDef :=
  { name := "Math Helper",
    instructions := "You are a helpful calculator. Use the risky_division tool to divide numbers.",
    tools := [riskyDivisionTool] }

/-- The FAQ agent of 4inputfilters.py (receives the handoff). -/
def faqAgent : AgentDef :=
  { name := "FAQ Agent",
    instructions := "You answer frequently asked questions clearly and concisely." }

/-- The handoff of 4inputfilters.py with the remove-all-tools input filter. -/
def faqHandoff : Handoff :=
  { targetName := "FAQ Agent", inputFilter := some remove_all_tools }

/-- The triage agent of 4inputfilters.py (performs the handoff). -/
def triageAgent : AgentDef :=
  { name := "Triage Agent",
    instructions := "You handle general customer queries.",
    handoffs := [faqHandoff] }

/-- The base agent of basiccloning.py. -/
def base_agent : AgentDef :=
  { name := "Base Agent",
    instructions := "You are a helpful assistant that responds to user queries in a professional manner." }

/- Theorems about the engine model. -/

theorem evalGuardrails_of_tripped (gs : List Guardrail) (input : String)
    (h : ∃ g ∈ gs, (g input).tripwireTriggered = true) :
    ∃ out : GuardrailFunctionOutput,
      evalGuardrails gs input = some out ∧ out.tripwireTriggered = true ∧
      ∃ g ∈ gs, g input = out := by
  induction gs with
  | nil => simp at h
  | cons g rest ih =>
    by_cases hg : (g input).tripwireTriggered = true
    · exact ⟨g input, by simp [evalGuardrails, hg], hg, g, by simp, rfl⟩
    · obtain ⟨g', hg', ht'⟩ := h
      rw [List.mem_cons] at hg'
      rcases hg' with rfl | hg'
      · exact absurd ht' hg
      · obtain ⟨out, hfind, htrip, g'', hmem, heq⟩ := ih ⟨g', hg', ht'⟩
        refine ⟨out, ?_, htrip, g'', by simp [hmem], heq⟩
        simpa [evalGuardrails, hg] using hfind

/-- Claim C1: when any input guardrail of the active agent trips on the
input, the run aborts with InputGuardrailTripwireTriggered carrying that
guardrail's verdict, for every model script — in particular for the empty
script, so the model backend is never invoked — and never returns a
successful RunResult (no assistant message is produced). -/
theorem C1_input_guardrail_short_circuits (registry : List AgentDef) (agent : AgentDef)
    (input : String) (maxTurns : Nat)
    (h : ∃ g ∈ agent.inputGuardrails, (g input).tripwireTriggered = true) :
    ∃ out : GuardrailFunctionOutput,
      out.tripwireTriggered = true ∧
      (∃ g ∈ agent.inputGuardrails, g input = out) ∧
      (∀ script : List ModelResponse,
        run registry agent input script maxTurns =
          Except.error (RunError.inputGuardrailTripwireTriggered out)) ∧
      (∀ (script : List ModelResponse) (r : RunResult),
        run registry agent input script maxTurns ≠ Except.ok r) := by
  obtain ⟨out, hfind, htrip, g, hmem, heq⟩ :=
    evalGuardrails_of_tripped agent.inputGuardrails input h
  refine ⟨out, htrip, ⟨g, hmem, heq⟩, ?_, ?_⟩
  · intro script
    simp [run, hfind]
  · intro script r hr
    simp [run, hfind] at hr

theorem C1_witness :
    ∃ out : GuardrailFunctionOutput,
      out.tripwireTriggered = true ∧
      (∃ g ∈ politeAgent.inputGuardrails, g "You are so stupid." = out) ∧
      (∀ script : List ModelResponse,
        run [] politeAgent "You are so stupid." script 5 =
          Except.error (RunError.inputGuardrailTripwireTriggered out)) ∧
      (∀ (script : List ModelResponse) (r : RunResult),
        run [] politeAgent "You are so stupid." script 5 ≠ Except.ok r) :=
  C1_input_guardrail_short_circuits [] politeAgent "You are so stupid." 5
    ⟨flagAllGuardrail, by simp [politeAgent], rfl⟩

/-- Claim C2: with tool_choice required, stop_on_first_tool, and the single
tool add_numbers, the run on the input asking for 3 + 5 terminates with
final output derived from the ToolResult 8 after exactly one turn, and the
result does not depend on any model responses after the first — no further
model call occurs after the tool executes. -/
theorem C2_stop_on_first_tool (rest : List ModelResponse) (maxTurns : Nat)
    (h : 1 ≤ maxTurns) :
    run [] mathAgent "What is 3 + 5?"
      (ModelResponse.toolCalls [⟨"add_numbers", "3,5", 1⟩] :: rest) maxTurns =
      Except.ok { finalOutput := "8", lastAgent := "Math Agent",
                  history := [Item.userMessage "What is 3 + 5?",
                              Item.toolCall "add_numbers" "3,5" 1,
                              Item.toolResult 1 "8"],
                  turnsUsed := 1 } := by
  have hexec : dispatchToolCalls [addNumbersTool] [⟨"add_numbers", "3,5", 1⟩] =
      Except.ok [Item.toolResult 1 "8"] := by rfl
  have hturn : ¬ (1 > maxTurns) := by omega
  simp [run, evalGuardrails, mathAgent, runTurns, hturn, hexec]

theorem C2_witness :
    run [] mathAgent "What is 3 + 5?"
      (ModelResponse.toolCalls [⟨"add_numbers", "3,5", 1⟩] ::
        [ModelResponse.message "this later response is never consumed"]) 3 =
      Except.ok { finalOutput := "8", lastAgent := "Math Agent",
                  history := [Item.userMessage "What is 3 + 5?",
                              Item.toolCall "add_numbers" "3,5" 1,
                              Item.toolResult 1 "8"],
                  turnsUsed := 1 } :=
  C2_stop_on_first_tool [ModelResponse.message "this later response is never consumed"] 3
    (by decide)

theorem runTurns_ok_turns_le (script : List ModelResponse) :
    ∀ (registry : List AgentDef) (agent : AgentDef) (hist : List Item)
      (turn maxTurns : Nat) (r : RunResult),
      runTurns registry agent hist script turn maxTurns = Except.ok r →
      r.turnsUsed ≤ maxTurns := by
  induction script with
  | nil =>
    intro registry agent hist turn maxTurns r hr
    unfold runTurns at hr
    by_cases h : turn > maxTurns <;> simp [h] at hr
  | cons resp rest ih =>
    intro registry agent hist turn maxTurns r hr
    unfold runTurns at hr
    by_cases h : turn > maxTurns
    · simp [h] at hr
    · simp only [if_neg h] at hr
      repeat' split at hr
      all_goals first
        | exact ih _ _ _ _ _ _ hr
        | (injection hr with hr2
           rw [← hr2]
           simpa using Nat.le_of_not_lt h)
        | simp at hr

/-- Claim C3: whenever the run loop's turn count exceeds max_turns it fails
with the distinguishable MaxTurnsExceeded error, for any registry, agent,
history and script (hence any configuration of tools and handoffs, cyclic
handoff graphs included); and a successful RunResult is only ever produced
within the turn budget.  The loop is a total Lean function, so it cannot
loop forever. -/
theorem C3_max_turns_exceeded (registry : List AgentDef) (agent : AgentDef)
    (hist : List Item) (input : String) (script : List ModelResponse)
    (turn maxTurns : Nat) (h : turn > maxTurns) :
    runTurns registry agent hist script turn maxTurns =
      Except.error RunError.maxTurnsExceeded ∧
    (∀ r : RunResult, run registry agent input script maxTurns = Except.ok r →
      r.turnsUsed ≤ maxTurns) := by
  constructor
  · unfold runTurns
    simp [h]
  · intro r hr
    unfold run at hr
    cases hg : evalGuardrails agent.inputGuardrails input with
    | some out => rw [hg] at hr; simp at hr
    | none =>
      rw [hg] at hr
      exact runTurns_ok_turns_le script _ _ _ _ _ _ hr

/-- The two agents of a cyclic handoff graph: each can hand off to the
other. -/
def agentA : AgentDef :=
  { name := "A", instructions := "agent A", handoffs := [⟨"B", none⟩] }

/-- The second agent of the cyclic handoff graph. -/
def agentB : AgentDef :=
  { name := "B", instructions := "agent B", handoffs := [⟨"A", none⟩] }

theorem C3_witness :
    (runTurns [agentA, agentB] agentA [] [ModelResponse.handoff "B"] 4 3 =
      Except.error RunError.maxTurnsExceeded) ∧
    (∀ r : RunResult,
      run [agentA, agentB] agentA "loop" [ModelResponse.handoff "B"] 3 = Except.ok r →
      r.turnsUsed ≤ 3) :=
  C3_max_turns_exceeded [agentA, agentB] agentA [] "loop"
    [ModelResponse.handoff "B"] 4 3 (by decide)

/-- Claim C4: a tool invocation whose body raises is caught at the invoker
boundary: with a declared failure handler the handler's value becomes the
ToolResult output appended to history and the run continues to a successful
RunResult; with no handler the exception propagates as a fatal
ToolExecutionError and no successful RunResult is produced. -/
theorem C4_tool_failure_handler (registry : List AgentDef) (agent : AgentDef)
    (input : String) (req : ToolRequest) (t : Tool) (e m : String)
    (rest : List ModelResponse) (maxTurns : Nat)
    (hfind : agent.tools.find? (fun tl => tl.name == req.name) = some t)
    (hbody : t.body req.args = Except.error e)
    (hgi : agent.inputGuardrails = [])
    (hgo : agent.outputGuardrails = [])
    (hbeh : agent.toolUseBehavior = ToolUseBehavior.runLlmAgain)
    (hmax : 2 ≤ maxTurns) :
    (∀ handler, t.failureHandler = some handler →
      run registry agent input
          (ModelResponse.toolCalls [req] :: ModelResponse.message m :: rest) maxTurns =
        Except.ok { finalOutput := m, lastAgent := agent.name,
                    history := [Item.userMessage input,
                                Item.toolCall req.name req.args req.callId,
                                Item.toolResult req.callId (handler e),
                                Item.assistantMessage m],
                    turnsUsed := 2 }) ∧
    (t.failureHandler = none →
      run registry agent input
          (ModelResponse.toolCalls [req] :: ModelResponse.message m :: rest) maxTurns =
        Except.error (RunError.toolExecutionError e)) := by
  have h1 : ¬ (1 > maxTurns) := by omega
  have h2 : ¬ (2 > maxTurns) := by omega
  constructor
  · intro handler hh
    simp [run, evalGuardrails, hgi, hgo, runTurns, h1, h2, dispatchToolCalls,
          executeToolCall, hfind, hbody, hh, hbeh]
  · intro hh
    simp [run, evalGuardrails, hgi, runTurns, h1, dispatchToolCalls,
          executeToolCall, hfind, hbody, hh, hbeh]

theorem C4_witness :
    run [] mathHelperAgent "Divide 10 by 0 using risky_division."
        (ModelResponse.toolCalls [⟨"risky_division", "10,0", 1⟩] ::
          ModelResponse.message "done" :: []) 2 =
      Except.ok { finalOutput := "done", lastAgent := "Math Helper",
                  history := [Item.userMessage "Divide 10 by 0 using risky_division.",
                              Item.toolCall "risky_division" "10,0" 1,
                              Item.toolResult 1 (custom_error_handler "division by zero"),
                              Item.assistantMessage "done"],
                  turnsUsed := 2 } :=
  (C4_tool_failure_handler [] mathHelperAgent "Divide 10 by 0 using risky_division."
      ⟨"risky_division", "10,0", 1⟩ riskyDivisionTool "division by zero" "done" [] 2
      (by rfl) (by rfl) rfl rfl rfl (by decide)).1 custom_error_handler rfl

/-- Claim C5: to_continuation_input equals the run's prior item history with
exactly one new user item appended verbatim at the end: the prior items are
an unmodified prefix in their original order, the suffix is exactly the one
new user item, and the length grows by exactly one. -/
theorem C5_continuation_input (r : RunResult) (msg : String) :
    r.toContinuationInput msg = r.toInputList ++ [Item.userMessage msg] ∧
    (r.toContinuationInput msg).take r.toInputList.length = r.toInputList ∧
    (r.toContinuationInput msg).drop r.toInputList.length = [Item.userMessage msg] ∧
    (r.toContinuationInput msg).length = r.toInputList.length + 1 := by
  refine ⟨rfl, ?_, ?_, ?_⟩ <;>
    simp [RunResult.toContinuationInput, RunResult.toInputList]

/-- Claim C6: a handoff whose input filter removes all tool items leaves a
history with zero ToolCall and zero ToolResult items, whatever the prior
history; and the run loop hands exactly that filtered history to the target
agent when the handoff is selected. -/
theorem C6_handoff_filter_strips_tools (h : Handoff) (hist : List Item)
    (registry : List AgentDef) (agent next : AgentDef) (target : String)
    (rest : List ModelResponse) (turn maxTurns : Nat)
    (hfilter : h.inputFilter = some remove_all_tools)
    (hho : agent.handoffs.find? (fun x => x.targetName == target) = some h)
    (hreg : registry.find? (fun a => a.name == target) = some next)
    (hturn : ¬ turn > maxTurns) :
    (∀ i ∈ applyInputFilter h hist, i.isToolCall = false ∧ i.isToolResult = false) ∧
    runTurns registry agent hist (ModelResponse.handoff target :: rest) turn maxTurns =
      runTurns registry next
        (applyInputFilter h (hist ++ [Item.handoffSignal target])) rest
        (turn + 1) maxTurns := by
  constructor
  · intro i hi
    rw [applyInputFilter, hfilter] at hi
    unfold remove_all_tools at hi
    rw [List.mem_filter] at hi
    obtain ⟨_, hp⟩ := hi
    cases i <;> simp_all [Item.isToolCall, Item.isToolResult]
  · rw [runTurns]
    simp [hturn, hho, hreg]

theorem C6_witness :
    (∀ i ∈ applyInputFilter faqHandoff
        [Item.toolCall "lookup_order" "id=7" 1, Item.toolResult 1 "shipped",
         Item.userMessage "What is your refund policy?"],
      i.isToolCall = false ∧ i.isToolResult = false) ∧
    runTurns [faqAgent] triageAgent
        [Item.toolCall "lookup_order" "id=7" 1, Item.toolResult 1 "shipped",
         Item.userMessage "What is your refund policy?"]
        (ModelResponse.handoff "FAQ Agent" :: []) 1 3 =
      runTurns [faqAgent] faqAgent
        (applyInputFilter faqHandoff
          ([Item.toolCall "lookup_order" "id=7" 1, Item.toolResult 1 "shipped",
            Item.userMessage "What is your refund policy?"] ++
            [Item.handoffSignal "FAQ Agent"])) [] 2 3 :=
  C6_handoff_filter_strips_tools faqHandoff
    [Item.toolCall "lookup_order" "id=7" 1, Item.toolResult 1 "shipped",
     Item.userMessage "What is your refund policy?"]
    [faqAgent] triageAgent faqAgent "FAQ Agent" [] 1 3
    rfl (by rfl) (by rfl) (by decide)

/-- Claim C7: cloning an AgentDefinition with overrides yields an agent
whose overridden fields take the new values while every field not
explicitly overridden — the tool list in particular — is taken unchanged
from the original; the original value is untouched (cloning is a pure
function), and an instruction override that differs from the original's
instructions yields a distinct agent. -/
theorem C7_clone_overrides (a : AgentDef) (o : CloneOverrides) :
    (o.tools = none → (a.clone o).tools = a.tools) ∧
    (∀ i, o.instructions = some i → (a.clone o).instructions = i) ∧
    (∀ nm, o.name = some nm → (a.clone o).name = nm) ∧
    (∀ ts, o.tools = some ts → (a.clone o).tools = ts) ∧
    (o.name = none → (a.clone o).name = a.name) ∧
    (o.instructions = none → (a.clone o).instructions = a.instructions) ∧
    (a.clone o).handoffs = a.handoffs ∧
    (a.clone o).inputGuardrails = a.inputGuardrails ∧
    (a.clone o).outputGuardrails = a.outputGuardrails ∧
    (a.clone o).modelSettings = a.modelSettings ∧
    (a.clone o).toolUseBehavior = a.toolUseBehavior ∧
    (∀ i, o.instructions = some i → i ≠ a.instructions → a.clone o ≠ a) := by
  refine ⟨?_, ?_, ?_, ?_, ?_, ?_, rfl, rfl, rfl, rfl, rfl, ?_⟩
  · intro ht
    simp [AgentDef.clone, ht]
  · intro i hi
    simp [AgentDef.clone, hi]
  · intro nm hn
    simp [AgentDef.clone, hn]
  · intro ts ht
    simp [AgentDef.clone, ht]
  · intro hn
    simp [AgentDef.clone, hn]
  · intro hi
    simp [AgentDef.clone, hi]
  · intro i hi hne heq
    apply hne
    have hins := congrArg AgentDef.instructions heq
    simpa [AgentDef.clone, hi] using hins

/-- The overrides of the pirate clone of basiccloning.py: new name and
instructions, tools untouched. -/
def pirateOverrides : CloneOverrides :=
  { name := some "Pirate Agent",
    instructions := some "You are a pirate-speaking assistant! Always respond in pirate speak." }

theorem C7_witness :
    (base_agent.clone pirateOverrides).instructions =
      "You are a pirate-speaking assistant! Always respond in pirate speak." ∧
    (base_agent.clone pirateOverrides).name = "Pirate Agent" ∧
    (base_agent.clone pirateOverrides).tools = base_agent.tools ∧
    base_agent.clone pirateOverrides ≠ base_agent :=
  ⟨(C7_clone_overrides base_agent pirateOverrides).2.1 _ rfl,
   (C7_clone_overrides base_agent pirateOverrides).2.2.1 _ rfl,
   (C7_clone_overrides base_agent pirateOverrides).1 rfl,
   (C7_clone_overrides base_agent pirateOverrides).2.2.2.2.2.2.2.2.2.2.2 _ rfl
     (by decide)⟩

theorem completionLog_cons_none (tools : List Tool) (reqs : List ToolRequest)
    (j : Nat) (t : List Nat) (hg : reqs.get? j = none) :
    completionLog tools reqs (j :: t) = completionLog tools reqs t := by
  unfold completionLog
  rw [List.get?_eq_getElem?] at hg
  simp [List.filterMap_cons, hg]

theorem completionLog_cons_some (tools : List Tool) (reqs : List ToolRequest)
    (j : Nat) (t : List Nat) (r : ToolRequest) (hg : reqs.get? j = some r) :
    completionLog tools reqs (j :: t) =
      (j, executeToolCall tools r) :: completionLog tools reqs t := by
  unfold completionLog
  rw [List.get?_eq_getElem?] at hg
  simp [List.filterMap_cons, hg]

theorem completionLog_find (tools : List Tool) (reqs : List ToolRequest)
    (schedule : List Nat) (i : Nat) (r : ToolRequest)
    (hi : reqs.get? i = some r) (hm : i ∈ schedule) :
    (completionLog tools reqs schedule).find? (fun e => e.fst == i) =
      some (i, executeToolCall tools r) := by
  induction schedule with
  | nil => cases hm
  | cons j t ih =>
    rw [List.mem_cons] at hm
    by_cases hj : j = i
    · subst hj
      rw [completionLog_cons_some tools reqs _ t _ hi,
          List.find?_cons_of_pos _ (by simp)]
    · have hm' : i ∈ t := by
        rcases hm with rfl | hm2
        · exact absurd rfl hj
        · exact hm2
      cases hg : reqs.get? j with
      | none =>
        rw [completionLog_cons_none tools reqs j t hg]
        exact ih hm'
      | some rj =>
        rw [completionLog_cons_some tools reqs j t rj hg,
            List.find?_cons_of_neg _ (by simp [hj])]
        exact ih hm'

/-- Claim C8: for any set of tool-call requests of one model turn and any
completion order of the concurrently executing bodies (any permutation of
the request indices), the ordered join reassembles the results in the
original request order: slot i holds the result of request i. -/
theorem C8_results_in_request_order (tools : List Tool) (reqs : List ToolRequest)
    (schedule : List Nat) (hperm : schedule.Perm (List.range reqs.length)) :
    reassemble reqs.length (completionLog tools reqs schedule) =
      reqs.map (fun r => some (executeToolCall tools r)) := by
  unfold reassemble
  refine List.ext_get (by simp) ?_
  intro n h1 h2
  have hn : n < reqs.length := by simpa using h2
  have hmem : n ∈ schedule := hperm.mem_iff.mpr (List.mem_range.mpr hn)
  have hget : reqs.get? n = some (reqs.get ⟨n, hn⟩) := List.get?_eq_get hn
  rw [List.get_map, List.get_map, List.get_range,
      completionLog_find tools reqs schedule n (reqs.get ⟨n, hn⟩) hget hmem]
  rfl

theorem C8_witness :
    reassemble 2
        (completionLog [addNumbersTool]
          [⟨"add_numbers", "1,2", 1⟩, ⟨"add_numbers", "3,4", 2⟩] [1, 0]) =
      [some (executeToolCall [addNumbersTool] ⟨"add_numbers", "1,2", 1⟩),
       some (executeToolCall [addNumbersTool] ⟨"add_numbers", "3,4", 2⟩)] :=
  C8_results_in_request_order [addNumbersTool]
    [⟨"add_numbers", "1,2", 1⟩, ⟨"add_numbers", "3,4", 2⟩] [1, 0] (by decide)
